import Mathlib

/-!
Verification development for the Skillzy Arena backend (the match
settlement, wallet and withdrawal subsystems of `src/match.js`,
`src/wallet.js` and `src/withdrawal.js`). JavaScript numbers are modelled
as exact rationals (on every concrete value appearing in the theorems
below the IEEE-double computation of the source and the rational
computation agree), `Math.round` as floor-of-(x + 1/2), the in-memory
`Map`s as association lists, and the `setTimeout` gateway callbacks as
explicit follow-up operations with the nondeterministic gateway outcome
passed as a boolean parameter.
-/

set_option allowUnsafeReducibility true in
attribute [semireducible] Rat.add Rat.sub Rat.mul Rat.div Rat.neg Rat.inv Rat.blt

namespace Skillzy

/-- Association-list lookup, modelling `Map.get`. -/
def lookupA {κ ν : Type} [DecidableEq κ] : List (κ × ν) → κ → Option ν
  | [], _ => none
  | (k, v) :: rest, key => if k = key then some v else lookupA rest key

/-- Association-list update, modelling `Map.set`: replaces the existing
binding, or appends a new one. -/
def setA {κ ν : Type} [DecidableEq κ] : List (κ × ν) → κ → ν → List (κ × ν)
  | [], key, v => [(key, v)]
  | (k, w) :: rest, key, v =>
    if k = key then (key, v) :: rest else (k, w) :: setA rest key v

/-- Association-list removal, modelling `Map.delete`. -/
def eraseA {κ ν : Type} [DecidableEq κ] : List (κ × ν) → κ → List (κ × ν)
  | [], _ => []
  | (k, w) :: rest, key => if k = key then rest else (k, w) :: eraseA rest key

instance {ε α : Type} [DecidableEq ε] [DecidableEq α] : DecidableEq (Except ε α)
  | .error e1, .error e2 =>
    if h : e1 = e2 then .isTrue (by rw [h]) else .isFalse (by intro hc; cases hc; exact h rfl)
  | .error _, .ok _ => .isFalse (by intro hc; cases hc)
  | .ok _, .error _ => .isFalse (by intro hc; cases hc)
  | .ok a1, .ok a2 =>
    if h : a1 = a2 then .isTrue (by rw [h]) else .isFalse (by intro hc; cases hc; exact h rfl)

/-- Supported currencies: the keys of `CURRENCY_RATES` (match.js lines
77-91, wallet.js 62-76, withdrawal.js 91-105). -/
inductive Currency
  | INR | USD | EUR | GBP | CNY | JPY | KRW | BRL | RUB | AED | SAR | CAD | AUD
  deriving DecidableEq, Repr, Fintype

/-- Conversion table `CURRENCY_RATES`: units of each currency per one INR. -/
def CURRENCY_RATES : Currency → ℚ
  | .INR => 1
  | .USD => 12/1000
  | .EUR => 11/1000
  | .GBP => 95/10000
  | .CNY => 86/1000
  | .JPY => 18/10
  | .KRW => 162/10
  | .BRL => 62/1000
  | .RUB => 11/10
  | .AED => 44/1000
  | .SAR => 45/1000
  | .CAD => 16/1000
  | .AUD => 18/1000

/-- JavaScript `Math.round`: round half toward positive infinity. -/
def jsRound (x : ℚ) : ℤ := ⌊x + 1/2⌋

/-- Two-decimal rounding `Math.round(x * 100) / 100` used throughout. -/
def round2 (x : ℚ) : ℚ := (jsRound (x * 100) : ℚ) / 100

/-- Function `convertCurrency` (match.js 94-97, wallet.js 115-118,
withdrawal.js 109-112): divide by the source rate (into INR), multiply by
the target rate, round to two decimals. -/
def convertCurrency (amount : ℚ) (fromCurrency toCurrency : Currency) : ℚ :=
  (jsRound (amount / CURRENCY_RATES fromCurrency * CURRENCY_RATES toCurrency * 100) : ℚ) / 100

/-! Match system (`src/match.js`). -/

/-- Game types: the keys of `GAME_CONFIGS` (match.js 52-74). -/
inductive GameType
  | chess | snakeLadder | carrom
  deriving DecidableEq, Repr, Fintype

/-- Per-game payout split record. -/
structure PayoutSplit where
  winner : ℚ
  platform : ℚ
  deriving DecidableEq, Repr

/-- Entry of `GAME_CONFIGS`. -/
structure GameConfig where
  name : String
  duration : ℕ
  maxPlayers : ℕ
  betAmount : ℚ
  payoutSplit : PayoutSplit
  deriving DecidableEq, Repr

/-- Table `GAME_CONFIGS` (match.js 52-74). -/
def GAME_CONFIGS : GameType → GameConfig
  | .chess =>
    { name := "Chess Master", duration := 60, maxPlayers := 2, betAmount := 10,
      payoutSplit := { winner := 16, platform := 4 } }
  | .snakeLadder =>
    { name := "Snake & Ladder", duration := 60, maxPlayers := 2, betAmount := 10,
      payoutSplit := { winner := 16, platform := 4 } }
  | .carrom =>
    { name := "Carrom Board", duration := 60, maxPlayers := 2, betAmount := 10,
      payoutSplit := { winner := 16, platform := 4 } }

/-- Connection status of a player inside a match. -/
inductive PlayerStatus
  | connected | disconnected
  deriving DecidableEq, Repr

/-- One entry of `match.players` (match.js 168-171, 296-297). -/
structure Player where
  id : String
  score : ℤ
  status : PlayerStatus
  lastUpdate : Option ℕ
  deriving DecidableEq, Repr

/-- Status values assigned to `match.status` in match.js
('starting' line 172, 'completed' line 376, 'cancelled' line 432). -/
inductive MatchStatus
  | starting | completed | cancelled
  deriving DecidableEq, Repr

/-- Kind tag of one payout entry ('refund' / 'win' / 'loss'). -/
inductive PayoutKind
  | refund | win | loss
  deriving DecidableEq, Repr

/-- One entry of `result.payouts` (match.js 354-356, 367-369, 440-444). -/
structure PayoutEntry where
  playerId : String
  amount : ℚ
  type : PayoutKind
  deriving DecidableEq, Repr

/-- Kind tag of a match result ('draw' / 'win' / 'cancelled'). -/
inductive ResultKind
  | draw | win | cancelled
  deriving DecidableEq, Repr

/-- Record `match.result` (match.js 348-373, 438-447). -/
structure MatchResult where
  type : ResultKind
  winner : Option String
  winnerScore : Option ℤ
  loserScore : Option ℤ
  payouts : List PayoutEntry
  platformEarnings : ℚ
  reason : Option String
  deriving DecidableEq, Repr

/-- A match record (match.js 163-179 plus the fields set later). -/
structure GameMatch where
  id : String
  gameType : GameType
  currency : Currency
  betAmount : ℚ
  players : List Player
  status : MatchStatus
  startTime : ℕ
  duration : ℕ
  payout : PayoutSplit
  result : Option MatchResult
  endTime : Option ℕ
  cancelReason : Option String
  cancelledBy : Option String
  deriving DecidableEq, Repr

/-- Match creation (match.js 163-179): the bet and both payout components
are the INR configuration values converted into the requested currency. -/
def createMatch (gameType : GameType) (currency : Currency) (playerId opponentId : String)
    (matchId : String) (now : ℕ) : GameMatch :=
  let gameConfig := GAME_CONFIGS gameType
  { id := matchId
    gameType := gameType
    currency := currency
    betAmount := convertCurrency gameConfig.betAmount .INR currency
    players := [{ id := playerId, score := 0, status := .connected, lastUpdate := none },
                { id := opponentId, score := 0, status := .connected, lastUpdate := none }]
    status := .starting
    startTime := now
    duration := gameConfig.duration
    payout := { winner := convertCurrency gameConfig.payoutSplit.winner .INR currency,
                platform := convertCurrency gameConfig.payoutSplit.platform .INR currency }
    result := none
    endTime := none
    cancelReason := none
    cancelledBy := none }

/-- One entry of a waiting list (match.js 212). -/
structure WaitingPlayer where
  id : String
  timestamp : ℕ
  deriving DecidableEq, Repr

/-- The three in-memory maps of the match system (match.js 44-46). The
`waitingPlayers` key models the string key `gameType + "_" + currency`
(match.js 146), which is in bijection with the pair. -/
structure MatchState where
  activeMatches : List (String × GameMatch)
  waitingPlayers : List ((GameType × Currency) × List WaitingPlayer)
  matchHistory : List (String × GameMatch)
  deriving DecidableEq, Repr

/-- Response of `POST /find` (match.js 136-141, 196-205, 216-222). -/
inductive FindResult
  | alreadyInMatch (matchId : String) (status : MatchStatus)
  | matched (matchId : String) (opponent : String)
  | queued (queuePosition : ℕ)
  deriving DecidableEq, Repr

/-- Endpoint `POST /find` (match.js 116-229). The fresh uuid-based match
id and the clock reading are passed as parameters. -/
def findMatch (s : MatchState) (gameType : GameType) (playerId : String) (currency : Currency)
    (newMatchId : String) (now : ℕ) : FindResult × MatchState :=
  match s.activeMatches.find? (fun kv => kv.2.players.any (fun p => p.id == playerId)) with
  | some (_, existingMatch) => (.alreadyInMatch existingMatch.id existingMatch.status, s)
  | none =>
    let waitingKey := (gameType, currency)
    match lookupA s.waitingPlayers waitingKey with
    | some (opponent :: rest) =>
      let s1 : MatchState :=
        { s with waitingPlayers :=
            if rest.isEmpty then eraseA s.waitingPlayers waitingKey
            else setA s.waitingPlayers waitingKey rest }
      let m := createMatch gameType currency playerId opponent.id newMatchId now
      (.matched newMatchId opponent.id,
        { s1 with activeMatches := setA s1.activeMatches newMatchId m })
    | _ =>
      let waitingList := (lookupA s.waitingPlayers waitingKey).getD []
      let newList := waitingList ++ [{ id := playerId, timestamp := now }]
      (.queued newList.length,
        { s with waitingPlayers := setA s.waitingPlayers waitingKey newList })

/-- Stable insertion of a player into a list already sorted by descending
score: the inserted player moves ahead of `q` only when its score strictly
exceeds the score of `q`, so earlier elements of equal score stay first. -/
def insertByScoreDesc (p : Player) : List Player → List Player
  | [] => [p]
  | q :: qs => if q.score < p.score then p :: q :: qs else q :: insertByScoreDesc p qs

/-- Stable sort by descending score, modelling the ECMAScript stable
`[...match.players].sort((a, b) => b.score - a.score)` (match.js 344). -/
def sortByScoreDesc (players : List Player) : List Player :=
  players.foldl (fun acc p => insertByScoreDesc p acc) []

/-- Response of `POST /:matchId/complete`. The `internalError` case models
the uncaught `TypeError` (caught by the handler as a 500) that the source
hits when the match has fewer than two players. -/
inductive CompleteResponse
  | notFound
  | alreadyCompleted
  | internalError
  | ok (result : MatchResult)
  deriving DecidableEq, Repr

/-- Endpoint `POST /:matchId/complete` (match.js 323-405): sort players by
descending score; equal top scores give a draw refunding the bet to both
players with zero platform earnings, otherwise the top player wins
`payout.winner`, the other gets 0, and the platform earns
`payout.platform`; the match moves from `activeMatches` to
`matchHistory`. -/
def completeOp (s : MatchState) (matchId : String) (now : ℕ) : CompleteResponse × MatchState :=
  match lookupA s.activeMatches matchId with
  | none => (.notFound, s)
  | some m =>
    if m.status = .completed then (.alreadyCompleted, s)
    else
      match sortByScoreDesc m.players with
      | winner :: loser :: _ =>
        let result : MatchResult :=
          if winner.score = loser.score then
            { type := .draw, winner := none, winnerScore := none, loserScore := none,
              payouts := [{ playerId := winner.id, amount := m.betAmount, type := .refund },
                          { playerId := loser.id, amount := m.betAmount, type := .refund }],
              platformEarnings := 0, reason := none }
          else
            { type := .win, winner := some winner.id, winnerScore := some winner.score,
              loserScore := some loser.score,
              payouts := [{ playerId := winner.id, amount := m.payout.winner, type := .win },
                          { playerId := loser.id, amount := 0, type := .loss }],
              platformEarnings := m.payout.platform, reason := none }
        let m1 := { m with status := MatchStatus.completed, endTime := some now,
                           result := some result }
        (.ok result,
          { s with activeMatches := eraseA s.activeMatches matchId,
                   matchHistory := setA s.matchHistory matchId m1 })
      | _ => (.internalError, s)

/-- Response of `POST /:matchId/cancel`. -/
inductive CancelMatchResponse
  | notFound
  | playerNotInMatch
  | ok (refunds : List PayoutEntry)
  deriving DecidableEq, Repr

/-- Endpoint `POST /:matchId/cancel` (match.js 408-477): both players are
refunded the bet amount and the match moves to history. -/
def cancelOp (s : MatchState) (matchId playerId reason : String) (now : ℕ) :
    CancelMatchResponse × MatchState :=
  match lookupA s.activeMatches matchId with
  | none => (.notFound, s)
  | some m =>
    if m.players.any (fun p => p.id == playerId) then
      let refundResult : MatchResult :=
        { type := .cancelled, winner := none, winnerScore := none, loserScore := none,
          payouts := m.players.map
            (fun p => { playerId := p.id, amount := m.betAmount, type := .refund }),
          platformEarnings := 0, reason := some reason }
      let m1 := { m with status := MatchStatus.cancelled, endTime := some now,
                         result := some refundResult, cancelReason := some reason,
                         cancelledBy := some playerId }
      (.ok refundResult.payouts,
        { s with activeMatches := eraseA s.activeMatches matchId,
                 matchHistory := setA s.matchHistory matchId m1 })
    else (.playerNotInMatch, s)

/-- Endpoint `POST /:matchId/score` (match.js 269-320): clamps the
submitted score at 0 and stores it on the player's entry. -/
def scoreOp (s : MatchState) (matchId playerId : String) (score : ℤ) (now : ℕ) :
    Bool × MatchState :=
  match lookupA s.activeMatches matchId with
  | none => (false, s)
  | some m =>
    match m.players.findIdx? (fun p => p.id == playerId) with
    | none => (false, s)
    | some i =>
      match m.players.get? i with
      | none => (false, s)
      | some p =>
        let p1 := { p with score := max 0 score, lastUpdate := some now }
        let m1 := { m with players := m.players.set i p1 }
        (true, { s with activeMatches := setA s.activeMatches matchId m1 })

/-! Wallet system (`src/wallet.js`). -/

/-- KYC verification states (wallet.js 130, withdrawal.js 150). -/
inductive KycStatus
  | pending | verified | rejected
  deriving DecidableEq, Repr

/-- A user wallet (wallet.js 122-134). -/
structure Wallet where
  userId : String
  balance : ℚ
  currency : Currency
  totalDeposits : ℚ
  totalWithdrawals : ℚ
  totalWinnings : ℚ
  kycStatus : KycStatus
  createdAt : ℕ
  lastActivity : ℕ
  deriving DecidableEq, Repr

/-- The `userWallets` map (wallet.js 51). -/
abbrev WalletState := List (String × Wallet)

/-- Function `createWallet` (wallet.js 122-134). -/
def createWallet (userId : String) (currency : Currency) (now : ℕ) : Wallet :=
  { userId := userId, balance := 0, currency := currency, totalDeposits := 0,
    totalWithdrawals := 0, totalWinnings := 0, kycStatus := .pending,
    createdAt := now, lastActivity := now }

/-- The get-or-create pattern repeated at wallet.js 162-166, 212-216 and
535-539: a missing wallet is created and stored. -/
def getOrCreateWallet (s : WalletState) (userId : String) (currency : Currency) (now : ℕ) :
    Wallet × WalletState :=
  match lookupA s userId with
  | some wallet => (wallet, s)
  | none =>
    let wallet := createWallet userId currency now
    (wallet, setA s userId wallet)

/-- The response body of `GET /:userId` (wallet.js 173-184). -/
structure WalletInfo where
  userId : String
  balance : ℚ
  currency : Currency
  nativeBalance : ℚ
  nativeCurrency : Currency
  totalDeposits : ℚ
  totalWithdrawals : ℚ
  totalWinnings : ℚ
  kycStatus : KycStatus
  lastActivity : ℕ
  deriving DecidableEq, Repr

/-- Display conversion of wallet.js 168-184: the balance is returned
unchanged when the requested currency is the wallet's native currency, and
converted through the rate table otherwise. -/
def walletInfoOf (wallet : Wallet) (currency : Currency) : WalletInfo :=
  { userId := wallet.userId
    balance := if wallet.currency = currency then wallet.balance
               else convertCurrency wallet.balance wallet.currency currency
    currency := currency
    nativeBalance := wallet.balance
    nativeCurrency := wallet.currency
    totalDeposits := wallet.totalDeposits
    totalWithdrawals := wallet.totalWithdrawals
    totalWinnings := wallet.totalWinnings
    kycStatus := wallet.kycStatus
    lastActivity := wallet.lastActivity }

/-- Endpoint `GET /:userId` (wallet.js 150-193). -/
def getWallet (s : WalletState) (userId : String) (currency : Currency) (now : ℕ) :
    WalletInfo × WalletState :=
  let p := getOrCreateWallet s userId currency now
  (walletInfoOf p.1 currency, p.2)

/-- Endpoint `GET /:userId` with the query-string default applied: a
missing `currency` query parameter defaults to INR (wallet.js 160). -/
def getWalletEndpoint (s : WalletState) (userId : String) (currency : Option Currency)
    (now : ℕ) : WalletInfo × WalletState :=
  getWallet s userId (currency.getD .INR) now

/-- One entry of `PAYMENT_GATEWAYS` (wallet.js 79-112). -/
structure Gateway where
  name : String
  currencies : List Currency
  methods : List String
  minDeposit : ℚ
  maxDeposit : ℚ
  fees : ℚ
  deriving DecidableEq, Repr

/-- Table `PAYMENT_GATEWAYS` in object-insertion order (wallet.js 79-112). -/
def PAYMENT_GATEWAYS : List (String × Gateway) :=
  [("razorpay",
    { name := "Razorpay", currencies := [.INR],
      methods := ["UPI", "Cards", "NetBanking", "Wallets"],
      minDeposit := 10, maxDeposit := 100000, fees := 2/100 }),
   ("stripe",
    { name := "Stripe", currencies := [.USD, .EUR, .GBP, .CAD, .AUD],
      methods := ["Cards", "Digital Wallets"],
      minDeposit := 1, maxDeposit := 50000, fees := 29/1000 }),
   ("alipay",
    { name := "Alipay", currencies := [.CNY],
      methods := ["Alipay", "WeChat Pay"],
      minDeposit := 10, maxDeposit := 50000, fees := 15/1000 }),
   ("pix",
    { name := "PIX", currencies := [.BRL],
      methods := ["PIX", "Credit Cards"],
      minDeposit := 5, maxDeposit := 25000, fees := 1/100 })]

/-- Gateway selection for deposits (wallet.js 219-225): the first gateway
supporting both the currency and the payment method. -/
def findDepositGateway (currency : Currency) (method : String) : Option (String × Gateway) :=
  PAYMENT_GATEWAYS.find?
    (fun kv => kv.2.currencies.any (fun c => c == currency) &&
               kv.2.methods.any (fun m => m == method))

/-- Gateway selection for withdrawals (wallet.js 368-374): only the
currency is checked. -/
def findWithdrawGateway (currency : Currency) : Option (String × Gateway) :=
  PAYMENT_GATEWAYS.find? (fun kv => kv.2.currencies.any (fun c => c == currency))

/-- Function `validateKYC` (wallet.js 136-143). -/
def validateKYC (amount : ℚ) (currency : Currency) (kycStatus : KycStatus) : Bool :=
  if 10000 < convertCurrency amount currency .INR ∧ kycStatus ≠ .verified then false
  else true

/-- Outcome of `POST /deposit`. -/
inductive DepositResult
  | methodNotSupported
  | amountOutOfRange
  | ok (netAmount fees : ℚ)
  deriving DecidableEq, Repr

/-- Endpoint `POST /deposit` (wallet.js 196-317), together with the mock
gateway callback (wallet.js 269-297) which always succeeds and credits
`netAmount` (converted into the wallet's native currency when needed). -/
def deposit (s : WalletState) (userId : String) (amount : ℚ) (currency : Currency)
    (paymentMethod : String) (now : ℕ) : DepositResult × WalletState :=
  let p := getOrCreateWallet s userId currency now
  let wallet := p.1
  let s1 := p.2
  match findDepositGateway currency paymentMethod with
  | none => (.methodNotSupported, s1)
  | some kv =>
    let gateway := kv.2
    if amount < gateway.minDeposit ∨ gateway.maxDeposit < amount then (.amountOutOfRange, s1)
    else
      let fees := round2 (amount * gateway.fees)
      let netAmount := amount - fees
      let walletAmount := if currency = wallet.currency then netAmount
                          else convertCurrency netAmount currency wallet.currency
      let wallet1 := { wallet with
                       balance := wallet.balance + walletAmount,
                       totalDeposits := wallet.totalDeposits + walletAmount,
                       lastActivity := now }
      (.ok netAmount fees, setA s1 userId wallet1)

/-- Conversion of a withdrawal request amount into the wallet's native
currency for the balance check and the deduction (wallet.js 343-345). -/
def withdrawalAmountInNative (wallet : Wallet) (amount : ℚ) (withdrawCurrency : Currency) : ℚ :=
  if withdrawCurrency = wallet.currency then amount
  else convertCurrency amount withdrawCurrency wallet.currency

/-- Outcome of `POST /withdraw`. -/
inductive WithdrawResult
  | walletNotFound
  | insufficientBalance (available requested : ℚ)
  | kycRequired
  | notSupported
  | ok (netAmount fees : ℚ)
  deriving DecidableEq, Repr

/-- Endpoint `POST /withdraw` (wallet.js 320-435): the balance check comes
first, then KYC, then gateway lookup; only when all pass is the converted
amount deducted from the wallet. -/
def withdraw (s : WalletState) (userId : String) (amount : ℚ) (currency : Option Currency)
    (now : ℕ) : WithdrawResult × WalletState :=
  match lookupA s userId with
  | none => (.walletNotFound, s)
  | some wallet =>
    let withdrawCurrency := currency.getD wallet.currency
    let walletAmount := withdrawalAmountInNative wallet amount withdrawCurrency
    if wallet.balance < walletAmount then
      (.insufficientBalance wallet.balance walletAmount, s)
    else if ! validateKYC amount withdrawCurrency wallet.kycStatus then (.kycRequired, s)
    else
      match findWithdrawGateway withdrawCurrency with
      | none => (.notSupported, s)
      | some kv =>
        let fees := round2 (amount * kv.2.fees)
        let netAmount := amount - fees
        let wallet1 := { wallet with
                         balance := wallet.balance - walletAmount,
                         lastActivity := now }
        (.ok netAmount fees, setA s userId wallet1)

/-- The platform's own wallet `developerWallet` (wallet.js 54-59). -/
structure DeveloperWallet where
  balance : ℚ
  currency : Currency
  totalEarnings : ℚ
  deriving DecidableEq, Repr

/-- Initial contents of `developerWallet` (wallet.js 54-59). -/
def initialDeveloperWallet : DeveloperWallet :=
  { balance := 45280, currency := .INR, totalEarnings := 125840 }

/-- Credit added to the winner's wallet by `POST /process-winnings`
(wallet.js 542-544): the amount as sent when the currencies agree,
converted into the wallet's native currency otherwise. -/
def winningsCredit (wallet : Wallet) (amount : ℚ) (currency : Currency) : ℚ :=
  if currency = wallet.currency then amount
  else convertCurrency amount currency wallet.currency

/-- Endpoint `POST /process-winnings` (wallet.js 519-591): credits the
winner's wallet and adds the platform fee, converted to INR, to the
developer wallet's balance and total earnings. -/
def processWinnings (s : WalletState) (dev : DeveloperWallet) (matchId winner : String)
    (amount : ℚ) (currency : Currency) (platformFee : ℚ) (now : ℕ) :
    WalletState × DeveloperWallet :=
  let p := getOrCreateWallet s winner currency now
  let winnerWallet := p.1
  let s1 := p.2
  let walletAmount := winningsCredit winnerWallet amount currency
  let winnerWallet1 := { winnerWallet with
                         balance := winnerWallet.balance + walletAmount,
                         totalWinnings := winnerWallet.totalWinnings + walletAmount,
                         lastActivity := now }
  let s2 := setA s1 winner winnerWallet1
  let developerFeeINR := convertCurrency platformFee currency .INR
  let dev1 := { dev with
                balance := dev.balance + developerFeeINR,
                totalEarnings := dev.totalEarnings + developerFeeINR }
  (s2, dev1)

/-! Withdrawal system (`src/withdrawal.js`). -/

/-- Values assigned to a withdrawal's `status` field in withdrawal.js:
'pending_approval' (line 223), 'approved' (489), 'processing' (557),
'completed' (573), 'failed' (581, 597, 607) and 'cancelled' (368). -/
inductive WStatus
  | pending_approval | approved | processing | completed | failed | cancelled
  deriving DecidableEq, Repr, Fintype

/-- Withdrawal methods (withdrawal.js 148). -/
inductive WMethod
  | UPI | BankTransfer | Cards | PIX | Alipay | PayPal
  deriving DecidableEq, Repr, Fintype

/-- Table `WITHDRAWAL_CONFIG.minAmount` (withdrawal.js 42-56). -/
def withdrawalMinAmount : Currency → ℚ
  | .INR => 100 | .USD => 5 | .EUR => 5 | .GBP => 4 | .CNY => 30 | .JPY => 500
  | .KRW => 6000 | .BRL => 25 | .RUB => 350 | .AED => 18 | .SAR => 19
  | .CAD => 7 | .AUD => 7

/-- Table `WITHDRAWAL_CONFIG.maxAmount` (withdrawal.js 57-71). -/
def withdrawalMaxAmount : Currency → ℚ
  | .INR => 200000 | .USD => 2500 | .EUR => 2200 | .GBP => 1900 | .CNY => 17000
  | .JPY => 350000 | .KRW => 3200000 | .BRL => 13000 | .RUB => 180000
  | .AED => 9200 | .SAR => 9400 | .CAD => 3300 | .AUD => 3600

/-- Table `WITHDRAWAL_CONFIG.processingFees` (withdrawal.js 72-79). -/
def processingFees : WMethod → ℚ
  | .UPI => 0 | .BankTransfer => 0 | .Cards => 2/100 | .PIX => 1/100
  | .Alipay => 15/1000 | .PayPal => 35/1000

/-- A withdrawal request record (withdrawal.js 210-231 plus the fields set
by the later status mutations). -/
structure Withdrawal where
  id : String
  userId : String
  amount : ℚ
  netAmount : ℚ
  processingFee : ℚ
  currency : Currency
  withdrawalMethod : WMethod
  status : WStatus
  kycStatus : KycStatus
  timestamp : ℕ
  approvedAt : Option ℕ
  approvedBy : Option String
  adminNotes : Option String
  processingStarted : Option ℕ
  gatewayReference : Option String
  completedAt : Option ℕ
  failedAt : Option ℕ
  failureReason : Option String
  cancelledAt : Option ℕ
  cancelReason : Option String
  cancelledBy : Option String
  deriving DecidableEq, Repr

/-- Construction of a withdrawal request (withdrawal.js 204-231): the
processing fee is the method's fee rate applied and rounded to two
decimals, and the initial status is always `pending_approval`. -/
def mkWithdrawalRequest (withdrawalId userId : String) (amount : ℚ) (currency : Currency)
    (withdrawalMethod : WMethod) (kycStatus : KycStatus) (now : ℕ) : Withdrawal :=
  let processingFee := round2 (amount * processingFees withdrawalMethod)
  { id := withdrawalId, userId := userId, amount := amount,
    netAmount := amount - processingFee, processingFee := processingFee,
    currency := currency, withdrawalMethod := withdrawalMethod,
    status := .pending_approval, kycStatus := kycStatus, timestamp := now,
    approvedAt := none, approvedBy := none, adminNotes := none,
    processingStarted := none, gatewayReference := none,
    completedAt := none, failedAt := none, failureReason := none,
    cancelledAt := none, cancelReason := none, cancelledBy := none }

/-- Outcome of `POST /request`. -/
inductive RequestResult
  | amountOutOfRange
  | kycRequired
  | ok (w : Withdrawal)
  deriving DecidableEq, Repr

/-- Endpoint `POST /request` (withdrawal.js 144-268), restricted to the
checks that can affect the created record: the per-currency amount limits
(161-169) and the KYC threshold (171-180). The `validateBankDetails`
free-form regular-expression check and the per-hour duplicate check only
gate creation and never alter any status value. -/
def requestWithdrawal (withdrawalId userId : String) (amount : ℚ) (currency : Currency)
    (withdrawalMethod : WMethod) (kycStatus : KycStatus) (now : ℕ) : RequestResult :=
  if amount < withdrawalMinAmount currency ∨ withdrawalMaxAmount currency < amount then
    .amountOutOfRange
  else if 10000 < convertCurrency amount currency .INR ∧ kycStatus ≠ .verified then
    .kycRequired
  else
    .ok (mkWithdrawalRequest withdrawalId userId amount currency withdrawalMethod kycStatus now)

/-- Errors of `POST /:withdrawalId/cancel`. -/
inductive CancelError
  | unauthorized
  | notAllowed
  deriving DecidableEq, Repr

/-- Endpoint `POST /:withdrawalId/cancel` (withdrawal.js 335-398): only a
withdrawal whose status is `pending_approval` or `approved` may be
cancelled, and cancellation sets the status to `cancelled`. -/
def cancelWithdrawal (w : Withdrawal) (userId reason : String) (now : ℕ) :
    Except CancelError Withdrawal :=
  if w.userId ≠ userId then .error .unauthorized
  else if w.status ≠ .pending_approval ∧ w.status ≠ .approved then .error .notAllowed
  else .ok { w with status := WStatus.cancelled, cancelledAt := some now,
                    cancelReason := some reason, cancelledBy := some userId }

/-- Status mutation of `POST /admin/:withdrawalId/approve`
(withdrawal.js 488-492). -/
def approveWithdrawal (w : Withdrawal) (adminId adminNotes : String) (now : ℕ) : Withdrawal :=
  { w with status := WStatus.approved, approvedAt := some now,
           approvedBy := some adminId, adminNotes := some adminNotes }

/-- Synchronous start of `processPayment` (withdrawal.js 557-559). -/
def startPaymentProcessing (w : Withdrawal) (now : ℕ) (gatewayRef : String) : Withdrawal :=
  { w with status := WStatus.processing, processingStarted := some now,
           gatewayReference := some gatewayRef }

/-- The complete synchronous effect of the approve endpoint: the admin
approval (status `approved`) immediately followed by the start of payment
processing (status `processing`), as `processPayment` is called
synchronously at withdrawal.js 499. -/
def adminApprove (w : Withdrawal) (adminId adminNotes : String) (now : ℕ)
    (gatewayRef : String) : Withdrawal :=
  startPaymentProcessing (approveWithdrawal w adminId adminNotes now) now gatewayRef

/-- The `setTimeout` gateway callback of `processPayment`
(withdrawal.js 567-604): the mock gateway outcome (a `Math.random`
comparison in the source) is passed as the boolean `isSuccess`. -/
def settlePayment (w : Withdrawal) (isSuccess : Bool) (now : ℕ) : Withdrawal :=
  if isSuccess then { w with status := WStatus.completed, completedAt := some now }
  else { w with status := WStatus.failed, failedAt := some now,
                failureReason := some "Gateway processing error" }

/-- The status-transition relation generated by the five operations above:
every assignment to a withdrawal's `status` field in withdrawal.js moves
along one of these six edges. -/
def wStepb : WStatus → WStatus → Bool
  | .pending_approval, .approved => true
  | .pending_approval, .cancelled => true
  | .approved, .processing => true
  | .approved, .cancelled => true
  | .processing, .completed => true
  | .processing, .failed => true
  | _, _ => false

/-- Position of a status along the lifecycle; the three terminal states
share the top rank. -/
def wRank : WStatus → ℕ
  | .pending_approval => 0
  | .approved => 1
  | .processing => 2
  | .completed => 3
  | .failed => 3
  | .cancelled => 3

/-- The four-state main path claimed by the specification
(`pending_approval → approved → processing → completed|failed`). -/
def mainPathStatuses : List WStatus :=
  [.pending_approval, .approved, .processing, .completed, .failed]

/-- All status values occurring in withdrawal.js. -/
def allWithdrawalStatuses : List WStatus :=
  [.pending_approval, .approved, .processing, .completed, .failed, .cancelled]

/-! Well-formedness predicates and concrete sample data used by the
theorems below. -/

/-- A stored match is a two-player session carrying the configured
duration window (its bet amount and payout are record fields). -/
def matchWellFormed (m : GameMatch) : Prop :=
  m.players.length = 2 ∧ m.duration = (GAME_CONFIGS m.gameType).duration

instance (m : GameMatch) : Decidable (matchWellFormed m) := by
  unfold matchWellFormed; infer_instance

/-- Every match stored in `activeMatches` or `matchHistory` is well
formed. -/
def matchStateWellFormed (s : MatchState) : Prop :=
  (∀ kv ∈ s.activeMatches, matchWellFormed kv.2) ∧
  (∀ kv ∈ s.matchHistory, matchWellFormed kv.2)

instance (s : MatchState) : Decidable (matchStateWellFormed s) := by
  unfold matchStateWellFormed; infer_instance

/-- Every stored user wallet has a non-negative balance. -/
def nonnegBalances (s : WalletState) : Prop :=
  ∀ kv ∈ s, 0 ≤ kv.2.balance

instance (s : WalletState) : Decidable (nonnegBalances s) := by
  unfold nonnegBalances; infer_instance

/-- A concrete finished chess match: alice scored 7, bob scored 3. -/
def sampleActiveMatch : GameMatch :=
  { createMatch .chess .INR "alice" "bob" "match_aaaaaaaa" 100 with
    players := [{ id := "alice", score := 7, status := .connected, lastUpdate := some 150 },
                { id := "bob", score := 3, status := .connected, lastUpdate := some 160 }] }

/-- A match state holding exactly the sample match. -/
def sampleMatchState : MatchState :=
  { activeMatches := [("match_aaaaaaaa", sampleActiveMatch)],
    waitingPlayers := [], matchHistory := [] }

/-- A state in which alice waits for a chess opponent in INR. -/
def waitingAliceChessINR : MatchState :=
  { activeMatches := [], matchHistory := [],
    waitingPlayers := [((.chess, .INR), [{ id := "alice", timestamp := 10 }])] }

/-- A state in which pete waits for a chess opponent in INR. -/
def waitingPeteChessINR : MatchState :=
  { activeMatches := [], matchHistory := [],
    waitingPlayers := [((.chess, .INR), [{ id := "pete", timestamp := 1 }])] }

/-- A freshly created pending withdrawal request over INR 200 via UPI. -/
def sampleWithdrawalPending : Withdrawal :=
  mkWithdrawalRequest "wd_000000000001" "user1" 200 .INR .UPI .pending 1000

/-- The sample withdrawal after a failed gateway attempt. -/
def sampleWithdrawalFailed : Withdrawal :=
  { sampleWithdrawalPending with status := WStatus.failed }

/-- The sample withdrawal after user cancellation at time 2000. -/
def sampleWithdrawalCancelled : Withdrawal :=
  { sampleWithdrawalPending with
    status := WStatus.cancelled, cancelledAt := some 2000,
    cancelReason := some "changed my mind", cancelledBy := some "user1" }

/-- A wallet holding INR 250 for carol. -/
def sampleWalletCarol : Wallet :=
  { createWallet "carol" .INR 5 with balance := 250 }

/-- A wallet holding USD 30 for dan. -/
def sampleWalletDan : Wallet :=
  { createWallet "dan" .USD 6 with balance := 30 }

/-! Helper lemmas about association lists and rounding. -/

theorem lookupA_setA_self {κ ν : Type} [DecidableEq κ] (l : List (κ × ν)) (k : κ) (v : ν) :
    lookupA (setA l k v) k = some v := by
  induction l with
  | nil => simp [setA, lookupA]
  | cons kv rest ih =>
    obtain ⟨k1, v1⟩ := kv
    by_cases h : k1 = k
    · simp [setA, lookupA, h]
    · simp [setA, lookupA, h, ih]

theorem lookupA_setA_ne {κ ν : Type} [DecidableEq κ] (l : List (κ × ν)) (k key : κ) (v : ν)
    (h : key ≠ k) : lookupA (setA l k v) key = lookupA l key := by
  induction l with
  | nil =>
    have hne : ¬ k = key := fun hk => h hk.symm
    simp [setA, lookupA, hne]
  | cons kv rest ih =>
    obtain ⟨k1, v1⟩ := kv
    by_cases h1 : k1 = k
    · subst h1
      have hne : ¬ k1 = key := fun hk => h hk.symm
      simp [setA, lookupA, hne]
    · simp [setA, lookupA, h1, ih]

theorem mem_setA {κ ν : Type} [DecidableEq κ] (l : List (κ × ν)) (k : κ) (v : ν)
    (kv : κ × ν) (hm : kv ∈ setA l k v) : kv = (k, v) ∨ kv ∈ l := by
  induction l with
  | nil => simpa [setA] using hm
  | cons hd rest ih =>
    obtain ⟨k1, v1⟩ := hd
    by_cases h1 : k1 = k
    · rw [setA, if_pos h1] at hm
      rcases List.mem_cons.mp hm with h | h
      · exact Or.inl h
      · exact Or.inr (List.mem_cons_of_mem _ h)
    · rw [setA, if_neg h1] at hm
      rcases List.mem_cons.mp hm with h | h
      · exact Or.inr (h ▸ List.mem_cons_self _ _)
      · rcases ih h with h2 | h2
        · exact Or.inl h2
        · exact Or.inr (List.mem_cons_of_mem _ h2)

theorem mem_eraseA {κ ν : Type} [DecidableEq κ] (l : List (κ × ν)) (k : κ)
    (kv : κ × ν) (hm : kv ∈ eraseA l k) : kv ∈ l := by
  induction l with
  | nil => simpa [eraseA] using hm
  | cons hd rest ih =>
    obtain ⟨k1, v1⟩ := hd
    by_cases h1 : k1 = k
    · rw [eraseA, if_pos h1] at hm
      exact List.mem_cons_of_mem _ hm
    · rw [eraseA, if_neg h1] at hm
      rcases List.mem_cons.mp hm with h | h
      · exact h ▸ List.mem_cons_self _ _
      · exact List.mem_cons_of_mem _ (ih h)

theorem lookupA_mem {κ ν : Type} [DecidableEq κ] (l : List (κ × ν)) (k : κ) (v : ν)
    (h : lookupA l k = some v) : (k, v) ∈ l := by
  induction l with
  | nil => simp [lookupA] at h
  | cons hd rest ih =>
    obtain ⟨k1, v1⟩ := hd
    by_cases h1 : k1 = k
    · subst h1
      rw [lookupA, if_pos rfl] at h
      exact (Option.some.injEq _ _ ▸ h : v1 = v) ▸ List.mem_cons_self _ _
    · rw [lookupA, if_neg h1] at h
      exact List.mem_cons_of_mem _ (ih h)

theorem rate_pos : ∀ c : Currency, 0 < CURRENCY_RATES c := by decide

theorem jsRound_nonneg (x : ℚ) (h : 0 ≤ x) : 0 ≤ jsRound x := by
  unfold jsRound
  exact Int.floor_nonneg.mpr (by linarith)

theorem jsRound_le (x : ℚ) : (jsRound x : ℚ) ≤ x + 1/2 := by
  unfold jsRound
  exact le_trans (Int.floor_le _) (le_refl _)

theorem convertCurrency_nonneg (amount : ℚ) (f t : Currency) (h : 0 ≤ amount) :
    0 ≤ convertCurrency amount f t := by
  unfold convertCurrency
  have hf := rate_pos f
  have ht := rate_pos t
  have hx : (0:ℚ) ≤ amount / CURRENCY_RATES f * CURRENCY_RATES t * 100 := by positivity
  have hr := jsRound_nonneg _ hx
  have : (0:ℚ) ≤ (jsRound (amount / CURRENCY_RATES f * CURRENCY_RATES t * 100) : ℚ) := by
    exact_mod_cast hr
  linarith

theorem round2_nonneg (x : ℚ) (h : 0 ≤ x) : 0 ≤ round2 x := by
  unfold round2
  have hr := jsRound_nonneg (x * 100) (by linarith)
  have : (0:ℚ) ≤ (jsRound (x * 100) : ℚ) := by exact_mod_cast hr
  linarith

theorem round2_le (x : ℚ) : round2 x ≤ x + 1/200 := by
  unfold round2
  have h := jsRound_le (x * 100)
  have h2 : (jsRound (x * 100) : ℚ) / 100 ≤ (x * 100 + 1/2) / 100 := by
    apply div_le_div_of_nonneg_right h
    norm_num
  linarith

theorem depositGateway_facts :
    ∀ kv ∈ PAYMENT_GATEWAYS, 0 ≤ kv.2.fees ∧ kv.2.fees ≤ 3/100 ∧ 1 ≤ kv.2.minDeposit := by
  decide

theorem sortByScoreDesc_pair (p0 p1 : Player) :
    sortByScoreDesc [p0, p1] = if p0.score < p1.score then [p1, p0] else [p0, p1] := by
  unfold sortByScoreDesc
  simp [insertByScoreDesc]

/-! Claim theorems. -/

/-- C1: completing a match with two players settles by score comparison:
a strictly greater score wins `payout.winner` (the other player 0, the
platform `payout.platform`); equal scores give a draw in which both
players are refunded the bet amount and the platform earns nothing. -/
theorem claim_C1_complete_settlement
    (s : MatchState) (matchId : String) (now : ℕ) (m : GameMatch) (p0 p1 : Player)
    (hm : lookupA s.activeMatches matchId = some m)
    (hplayers : m.players = [p0, p1])
    (hstatus : m.status ≠ .completed) :
    (p1.score < p0.score →
      (completeOp s matchId now).1 = .ok
        { type := .win, winner := some p0.id, winnerScore := some p0.score,
          loserScore := some p1.score,
          payouts := [{ playerId := p0.id, amount := m.payout.winner, type := .win },
                      { playerId := p1.id, amount := 0, type := .loss }],
          platformEarnings := m.payout.platform, reason := none }) ∧
    (p0.score < p1.score →
      (completeOp s matchId now).1 = .ok
        { type := .win, winner := some p1.id, winnerScore := some p1.score,
          loserScore := some p0.score,
          payouts := [{ playerId := p1.id, amount := m.payout.winner, type := .win },
                      { playerId := p0.id, amount := 0, type := .loss }],
          platformEarnings := m.payout.platform, reason := none }) ∧
    (p0.score = p1.score →
      (completeOp s matchId now).1 = .ok
        { type := .draw, winner := none, winnerScore := none, loserScore := none,
          payouts := [{ playerId := p0.id, amount := m.betAmount, type := .refund },
                      { playerId := p1.id, amount := m.betAmount, type := .refund }],
          platformEarnings := 0, reason := none }) := by
  have hsort := sortByScoreDesc_pair p0 p1
  refine ⟨?_, ?_, ?_⟩
  · intro h
    have hlt : ¬ p0.score < p1.score := not_lt.mpr (le_of_lt h)
    have hne : p0.score ≠ p1.score := ne_of_gt h
    simp [completeOp, hm, hstatus, hplayers, hsort, hlt, hne]
  · intro h
    have hne : p1.score ≠ p0.score := ne_of_gt h
    simp [completeOp, hm, hstatus, hplayers, hsort, h, hne]
  · intro h
    have hlt : ¬ p0.score < p1.score := not_lt.mpr (le_of_eq h.symm)
    simp [completeOp, hm, hstatus, hplayers, hsort, hlt, h]

/-- Witness for C1 at a concrete state: alice (7) beats bob (3) in the
sample chess match. -/
theorem claim_C1_witness :
    (completeOp sampleMatchState "match_aaaaaaaa" 200).1 = .ok
      { type := .win, winner := some "alice", winnerScore := some 7, loserScore := some 3,
        payouts := [{ playerId := "alice", amount := sampleActiveMatch.payout.winner,
                      type := .win },
                    { playerId := "bob", amount := 0, type := .loss }],
        platformEarnings := sampleActiveMatch.payout.platform, reason := none } :=
  (claim_C1_complete_settlement sampleMatchState "match_aaaaaaaa" 200 sampleActiveMatch
    { id := "alice", score := 7, status := .connected, lastUpdate := some 150 }
    { id := "bob", score := 3, status := .connected, lastUpdate := some 160 }
    (by decide) (by decide) (by decide)).1 (by decide)

/-- C2 counterexample: in GBP, the converted winner payout (0.15) plus the
converted platform share (0.04) is 0.19, not twice the converted bet
amount (2 x 0.10 = 0.20), so the claimed identity fails after currency
conversion. -/
theorem claim_C2_counterexample :
    (createMatch .chess .GBP "a" "b" "match_00000000" 0).payout.winner +
      (createMatch .chess .GBP "a" "b" "match_00000000" 0).payout.platform ≠
      2 * (createMatch .chess .GBP "a" "b" "match_00000000" 0).betAmount := by
  decide

/-- C2 (amended): the payout is the fixed 80/20 division of the pooled bet
defined in INR - winner 16 = 80 percent of 20, platform 4 = 20 percent -
and each component is converted to the match currency and rounded to two
decimals independently; the exact identities (winner plus platform equals
twice the bet, winner equals 80 percent of the pool) hold in INR but can
fail by a cent in converted currencies. -/
theorem claim_C2_payout_split (gameType : GameType) (currency : Currency)
    (playerId opponentId matchId : String) (now : ℕ) :
    (createMatch gameType currency playerId opponentId matchId now).payout.winner =
      convertCurrency (4/5 * (2 * (GAME_CONFIGS gameType).betAmount)) .INR currency ∧
    (createMatch gameType currency playerId opponentId matchId now).payout.platform =
      convertCurrency (1/5 * (2 * (GAME_CONFIGS gameType).betAmount)) .INR currency ∧
    (createMatch gameType currency playerId opponentId matchId now).betAmount =
      convertCurrency (GAME_CONFIGS gameType).betAmount .INR currency ∧
    (currency = .INR →
      (createMatch gameType currency playerId opponentId matchId now).payout.winner +
        (createMatch gameType currency playerId opponentId matchId now).payout.platform =
        2 * (createMatch gameType currency playerId opponentId matchId now).betAmount ∧
      (createMatch gameType currency playerId opponentId matchId now).payout.winner =
        4/5 * ((createMatch gameType currency playerId opponentId matchId now).payout.winner +
          (createMatch gameType currency playerId opponentId matchId now).payout.platform)) := by
  have h16 : (4:ℚ)/5 * (2 * (GAME_CONFIGS gameType).betAmount) =
      (GAME_CONFIGS gameType).payoutSplit.winner := by
    cases gameType <;> norm_num [GAME_CONFIGS]
  have h4 : (1:ℚ)/5 * (2 * (GAME_CONFIGS gameType).betAmount) =
      (GAME_CONFIGS gameType).payoutSplit.platform := by
    cases gameType <;> norm_num [GAME_CONFIGS]
  refine ⟨by rw [h16]; rfl, by rw [h4]; rfl, rfl, ?_⟩
  intro hc
  subst hc
  have hkey : convertCurrency 16 .INR .INR + convertCurrency 4 .INR .INR =
        2 * convertCurrency 10 .INR .INR ∧
      convertCurrency 16 .INR .INR =
        4/5 * (convertCurrency 16 .INR .INR + convertCurrency 4 .INR .INR) := by
    decide
  cases gameType <;> exact hkey

/-- Witness for C2 (amended): in INR the 80/20 identities hold exactly. -/
theorem claim_C2_witness :
    (createMatch .chess .INR "a" "b" "match_00000000" 0).payout.winner +
      (createMatch .chess .INR "a" "b" "match_00000000" 0).payout.platform =
      2 * (createMatch .chess .INR "a" "b" "match_00000000" 0).betAmount :=
  ((claim_C2_payout_split .chess .INR "a" "b" "match_00000000" 0).2.2.2 rfl).1

/-- C3 counterexample: cancelling a pending withdrawal stores the status
value `cancelled`, which lies outside the four claimed states, so the
claim that no operation ever sets a fifth status is false. -/
theorem claim_C3_counterexample :
    (cancelWithdrawal sampleWithdrawalPending "user1" "changed my mind" 2000).toOption.map
        Withdrawal.status = some WStatus.cancelled ∧
    WStatus.cancelled ∉ mainPathStatuses := by
  decide

/-- C3 (amended): withdrawal statuses are drawn from five states - the
main path pending_approval, approved, processing, completed or failed,
plus `cancelled`, reachable by user cancellation only from
pending_approval or approved; every status write follows the transition
relation and strictly increases the lifecycle rank, so no operation moves
a withdrawal backwards. -/
theorem claim_C3_status_machine :
    (∀ (withdrawalId userId : String) (amount : ℚ) (currency : Currency)
        (method : WMethod) (kyc : KycStatus) (t : ℕ) (w : Withdrawal),
        requestWithdrawal withdrawalId userId amount currency method kyc t = .ok w →
        w.status = .pending_approval) ∧
    (∀ (w : Withdrawal) (userId reason : String) (t : ℕ) (w1 : Withdrawal),
        cancelWithdrawal w userId reason t = .ok w1 →
        (w.status = .pending_approval ∨ w.status = .approved) ∧
        w1.status = .cancelled ∧ wStepb w.status w1.status = true) ∧
    (∀ (w : Withdrawal) (adminId adminNotes : String) (t : ℕ) (gatewayRef : String),
        (approveWithdrawal w adminId adminNotes t).status = .approved ∧
        (adminApprove w adminId adminNotes t gatewayRef).status = .processing ∧
        (w.status = .pending_approval →
          wStepb w.status (approveWithdrawal w adminId adminNotes t).status = true ∧
          wStepb (approveWithdrawal w adminId adminNotes t).status
            (adminApprove w adminId adminNotes t gatewayRef).status = true)) ∧
    (∀ (w : Withdrawal) (b : Bool) (t : ℕ),
        ((settlePayment w b t).status = .completed ∨ (settlePayment w b t).status = .failed) ∧
        (w.status = .processing → wStepb w.status (settlePayment w b t).status = true)) ∧
    (∀ a b : WStatus, wStepb a b = true → wRank a < wRank b ∧ b ∈ allWithdrawalStatuses) := by
  refine ⟨?_, ?_, ?_, ?_, ?_⟩
  · intro wid uid a c method kyc t w h
    unfold requestWithdrawal at h
    by_cases h1 : a < withdrawalMinAmount c ∨ withdrawalMaxAmount c < a
    · rw [if_pos h1] at h
      exact absurd h (by simp)
    · rw [if_neg h1] at h
      by_cases h2 : 10000 < convertCurrency a c .INR ∧ kyc ≠ .verified
      · rw [if_pos h2] at h
        exact absurd h (by simp)
      · rw [if_neg h2] at h
        injection h with h3
        rw [← h3]
        rfl
  · intro w uid r t w1 h
    unfold cancelWithdrawal at h
    by_cases h1 : w.userId ≠ uid
    · rw [if_pos h1] at h
      exact absurd h (by simp)
    · rw [if_neg h1] at h
      by_cases h2 : w.status ≠ .pending_approval ∧ w.status ≠ .approved
      · rw [if_pos h2] at h
        exact absurd h (by simp)
      · rw [if_neg h2] at h
        have hst : w.status = .pending_approval ∨ w.status = .approved := by
          by_contra hcon
          push_neg at hcon
          exact h2 ⟨hcon.1, hcon.2⟩
        injection h with h3
        subst h3
        refine ⟨hst, rfl, ?_⟩
        rcases hst with h4 | h4 <;> rw [h4] <;> rfl
  · intro w a notes t g
    refine ⟨rfl, rfl, ?_⟩
    intro h
    rw [h]
    exact ⟨rfl, rfl⟩
  · intro w b t
    cases b
    · exact ⟨Or.inr rfl, fun h => by rw [h]; rfl⟩
    · exact ⟨Or.inl rfl, fun h => by rw [h]; rfl⟩
  · decide

/-- Witness for C3: cancelling the concrete pending sample withdrawal
takes it from pending_approval to cancelled along the relation. -/
theorem claim_C3_witness :
    (sampleWithdrawalPending.status = .pending_approval ∨
      sampleWithdrawalPending.status = .approved) ∧
    sampleWithdrawalCancelled.status = .cancelled ∧
    wStepb sampleWithdrawalPending.status sampleWithdrawalCancelled.status = true :=
  claim_C3_status_machine.2.1 sampleWithdrawalPending "user1" "changed my mind" 2000
    sampleWithdrawalCancelled (by decide)

/-- C4 counterexample: alice is waiting for a chess opponent (queued under
the key chess-INR), yet bob's chess request in USD is queued instead of
being paired with her - the queue is keyed by game type AND currency, not
by game type alone, so two waiting players with the same game type but
different currencies are never pairable. -/
theorem claim_C4_counterexample :
    lookupA waitingAliceChessINR.waitingPlayers (.chess, .INR) =
      some [{ id := "alice", timestamp := 10 }] ∧
    (findMatch waitingAliceChessINR .chess "bob" .USD "match_00000001" 20).1 = .queued 1 ∧
    lookupA (findMatch waitingAliceChessINR .chess "bob" .USD "match_00000001" 20).2.waitingPlayers
      (.chess, .INR) = some [{ id := "alice", timestamp := 10 }] := by
  decide

/-- C4 (amended): matchmaking is a first-in-first-out queue keyed by the
pair of game type and currency: a requester not already in a match is
paired with the head of the waiting queue for the same game type and
currency (which is removed), and when that queue is absent the requester
is appended at its tail. -/
theorem claim_C4_fifo_queue :
    (∀ (s : MatchState) (gameType : GameType) (playerId : String) (currency : Currency)
        (newMatchId : String) (now : ℕ) (opponent : WaitingPlayer)
        (rest : List WaitingPlayer),
        s.activeMatches.find? (fun kv => kv.2.players.any (fun p => p.id == playerId)) = none →
        lookupA s.waitingPlayers (gameType, currency) = some (opponent :: rest) →
        (findMatch s gameType playerId currency newMatchId now).1 =
          .matched newMatchId opponent.id ∧
        (findMatch s gameType playerId currency newMatchId now).2.activeMatches =
          setA s.activeMatches newMatchId
            (createMatch gameType currency playerId opponent.id newMatchId now) ∧
        (findMatch s gameType playerId currency newMatchId now).2.waitingPlayers =
          (if rest.isEmpty then eraseA s.waitingPlayers (gameType, currency)
           else setA s.waitingPlayers (gameType, currency) rest)) ∧
    (∀ (s : MatchState) (gameType : GameType) (playerId : String) (currency : Currency)
        (newMatchId : String) (now : ℕ),
        s.activeMatches.find? (fun kv => kv.2.players.any (fun p => p.id == playerId)) = none →
        lookupA s.waitingPlayers (gameType, currency) = none →
        (findMatch s gameType playerId currency newMatchId now).1 = .queued 1 ∧
        (findMatch s gameType playerId currency newMatchId now).2.waitingPlayers =
          setA s.waitingPlayers (gameType, currency) [{ id := playerId, timestamp := now }]) := by
  constructor
  · intro s g pid c mid t opp rest hactive hqueue
    simp [findMatch, hactive, hqueue]
  · intro s g pid c mid t hactive hqueue
    simp [findMatch, hactive, hqueue]

/-- Witness for C4: bob requests chess in INR while alice waits in the
chess-INR queue, and they are paired with alice popped from the queue. -/
theorem claim_C4_witness :
    (findMatch waitingAliceChessINR .chess "bob" .INR "match_00000003" 20).1 =
      .matched "match_00000003" "alice" ∧
    (findMatch waitingAliceChessINR .chess "bob" .INR "match_00000003" 20).2.activeMatches =
      setA waitingAliceChessINR.activeMatches "match_00000003"
        (createMatch .chess .INR "bob" "alice" "match_00000003" 20) ∧
    (findMatch waitingAliceChessINR .chess "bob" .INR "match_00000003" 20).2.waitingPlayers =
      (if ([] : List WaitingPlayer).isEmpty then
        eraseA waitingAliceChessINR.waitingPlayers (.chess, .INR)
       else setA waitingAliceChessINR.waitingPlayers (.chess, .INR) []) :=
  claim_C4_fifo_queue.1 waitingAliceChessINR .chess "bob" .INR "match_00000003" 20
    { id := "alice", timestamp := 10 } [] (by decide) (by decide)

/-- C5 counterexample: no operation of withdrawal.js leaves the `failed`
status - in particular a failed withdrawal never re-enters `processing`,
and even user cancellation of a failed withdrawal is rejected - so the
claimed retry does not exist. -/
theorem claim_C5_counterexample :
    allWithdrawalStatuses.all (fun t => ! wStepb WStatus.failed t) = true ∧
    cancelWithdrawal sampleWithdrawalFailed "user1" "please retry" 3000 =
      .error CancelError.notAllowed := by
  decide

/-- C5 (amended): gateway processing terminates every withdrawal in
`completed` or `failed`; there is no retry path - `failed` admits no
outgoing transition and cancellation of a failed withdrawal always
errors. -/
theorem claim_C5_no_retry :
    (∀ (w : Withdrawal) (b : Bool) (t : ℕ),
        (settlePayment w b t).status = .completed ∨ (settlePayment w b t).status = .failed) ∧
    (∀ t : WStatus, wStepb .failed t = false) ∧
    (∀ (w : Withdrawal) (userId reason : String) (t : ℕ),
        w.status = .failed →
        cancelWithdrawal w userId reason t = .error .unauthorized ∨
        cancelWithdrawal w userId reason t = .error .notAllowed) := by
  refine ⟨?_, by decide, ?_⟩
  · intro w b t
    cases b
    · exact Or.inr rfl
    · exact Or.inl rfl
  · intro w uid r t hw
    unfold cancelWithdrawal
    by_cases h1 : w.userId ≠ uid
    · rw [if_pos h1]
      exact Or.inl rfl
    · rw [if_neg h1]
      rw [if_pos ⟨by rw [hw]; decide, by rw [hw]; decide⟩]
      exact Or.inr rfl

/-- Witness for C5: cancelling the concrete failed sample withdrawal is
rejected. -/
theorem claim_C5_witness :
    cancelWithdrawal sampleWithdrawalFailed "user1" "retry" 7 = .error .unauthorized ∨
    cancelWithdrawal sampleWithdrawalFailed "user1" "retry" 7 = .error .notAllowed :=
  claim_C5_no_retry.2.2 sampleWithdrawalFailed "user1" "retry" 7 (by decide)

/-- C6 counterexample: pete queues for chess in INR and then calls find
again; the existing-match check only scans `activeMatches`, so pete is
popped from the waiting queue as his own opponent and the stored match
carries the id "pete" twice - the two player entries are not distinct. -/
theorem claim_C6_counterexample :
    (findMatch waitingPeteChessINR .chess "pete" .INR "match_00000002" 9).1 =
      .matched "match_00000002" "pete" ∧
    (lookupA (findMatch waitingPeteChessINR .chess "pete" .INR "match_00000002" 9).2.activeMatches
        "match_00000002").map (fun m => m.players.map Player.id) = some ["pete", "pete"] := by
  decide

/-- C6 (amended): every match stored in `activeMatches` or `matchHistory`
has exactly two player entries, carries a bet amount and the configured
fixed duration window, and this is preserved by every match operation -
but the two player ids need not be distinct, since a player already
waiting in the queue can be matched against themselves. -/
theorem claim_C6_two_player_sessions :
    (∀ (gameType : GameType) (currency : Currency) (playerId opponentId matchId : String)
        (now : ℕ), matchWellFormed (createMatch gameType currency playerId opponentId matchId now)) ∧
    (∀ (s : MatchState) (gameType : GameType) (playerId : String) (currency : Currency)
        (newMatchId : String) (now : ℕ), matchStateWellFormed s →
        matchStateWellFormed (findMatch s gameType playerId currency newMatchId now).2) ∧
    (∀ (s : MatchState) (matchId : String) (now : ℕ), matchStateWellFormed s →
        matchStateWellFormed (completeOp s matchId now).2) ∧
    (∀ (s : MatchState) (matchId playerId reason : String) (now : ℕ), matchStateWellFormed s →
        matchStateWellFormed (cancelOp s matchId playerId reason now).2) ∧
    (∀ (s : MatchState) (matchId playerId : String) (score : ℤ) (now : ℕ),
        matchStateWellFormed s →
        matchStateWellFormed (scoreOp s matchId playerId score now).2) := by
  have hcreate : ∀ (g : GameType) (c : Currency) (pid oid mid : String) (t : ℕ),
      matchWellFormed (createMatch g c pid oid mid t) := fun g c pid oid mid t => ⟨rfl, rfl⟩
  refine ⟨hcreate, ?_, ?_, ?_, ?_⟩
  · intro s g pid c mid t hwf
    rcases hfind : s.activeMatches.find? (fun kv => kv.2.players.any (fun p => p.id == pid))
      with _ | kv
    · rcases hql : lookupA s.waitingPlayers (g, c) with _ | list
      · simp only [findMatch, hfind, hql]
        exact hwf
      · rcases list with _ | ⟨opp, rest⟩
        · simp only [findMatch, hfind, hql]
          exact hwf
        · simp only [findMatch, hfind, hql]
          refine ⟨?_, hwf.2⟩
          intro kv2 hkv2
          rcases mem_setA _ _ _ _ hkv2 with h | h
          · rw [h]
            exact hcreate g c pid opp.id mid t
          · exact hwf.1 kv2 h
    · simp only [findMatch, hfind]
      exact hwf
  · intro s mid t hwf
    rcases hl : lookupA s.activeMatches mid with _ | m
    · simp only [completeOp, hl]
      exact hwf
    · by_cases hst : m.status = .completed
      · simp only [completeOp, hl, if_pos hst]
        exact hwf
      · have hm : matchWellFormed m := hwf.1 (mid, m) (lookupA_mem _ _ _ hl)
        rcases hs : sortByScoreDesc m.players with _ | ⟨w1, rest⟩
        · simp only [completeOp, hl, if_neg hst, hs]
          exact hwf
        · rcases rest with _ | ⟨l1, rest2⟩
          · simp only [completeOp, hl, if_neg hst, hs]
            exact hwf
          · simp only [completeOp, hl, if_neg hst, hs]
            refine ⟨?_, ?_⟩
            · intro kv2 hkv2
              exact hwf.1 kv2 (mem_eraseA _ _ _ hkv2)
            · intro kv2 hkv2
              rcases mem_setA _ _ _ _ hkv2 with h | h
              · rw [h]
                exact hm
              · exact hwf.2 kv2 h
  · intro s mid pid r t hwf
    rcases hl : lookupA s.activeMatches mid with _ | m
    · simp only [cancelOp, hl]
      exact hwf
    · have hm : matchWellFormed m := hwf.1 (mid, m) (lookupA_mem _ _ _ hl)
      by_cases hp : m.players.any (fun p => p.id == pid)
      · simp only [cancelOp, hl, if_pos hp]
        refine ⟨?_, ?_⟩
        · intro kv2 hkv2
          exact hwf.1 kv2 (mem_eraseA _ _ _ hkv2)
        · intro kv2 hkv2
          rcases mem_setA _ _ _ _ hkv2 with h | h
          · rw [h]
            exact hm
          · exact hwf.2 kv2 h
      · simp only [cancelOp, hl, if_neg hp]
        exact hwf
  · intro s mid pid sc t hwf
    rcases hl : lookupA s.activeMatches mid with _ | m
    · simp only [scoreOp, hl]
      exact hwf
    · have hm : matchWellFormed m := hwf.1 (mid, m) (lookupA_mem _ _ _ hl)
      rcases hi : m.players.findIdx? (fun p => p.id == pid) with _ | i
      · simp only [scoreOp, hl, hi]
        exact hwf
      · rcases hg : m.players.get? i with _ | p
        · simp only [scoreOp, hl, hi, hg]
          exact hwf
        · simp only [scoreOp, hl, hi, hg]
          refine ⟨?_, hwf.2⟩
          intro kv2 hkv2
          rcases mem_setA _ _ _ _ hkv2 with h | h
          · rw [h]
            exact ⟨by simpa using hm.1, hm.2⟩
          · exact hwf.1 kv2 h

/-- Witness for C6: the sample state is well formed and stays so after
completing the sample match. -/
theorem claim_C6_witness :
    matchStateWellFormed sampleMatchState ∧
    matchStateWellFormed (completeOp sampleMatchState "match_aaaaaaaa" 200).2 :=
  ⟨by decide,
   claim_C6_two_player_sessions.2.2.1 sampleMatchState "match_aaaaaaaa" 200 (by decide)⟩

/-- C7: reading an existing wallet returns the stored native balance when
the requested currency matches the native currency and otherwise the
balance converted through the INR-pivot rate table (divide by source
rate, multiply by target rate, round to two decimals); the read leaves
the state untouched. -/
theorem claim_C7_wallet_read (s : WalletState) (userId : String) (currency : Currency)
    (now : ℕ) (w : Wallet) (h : lookupA s userId = some w) :
    (getWallet s userId currency now).1.balance =
      (if w.currency = currency then w.balance
       else convertCurrency w.balance w.currency currency) ∧
    (getWallet s userId currency now).1.nativeBalance = w.balance ∧
    (getWallet s userId currency now).2 = s ∧
    convertCurrency w.balance w.currency currency =
      (jsRound (w.balance / CURRENCY_RATES w.currency * CURRENCY_RATES currency * 100) : ℚ)
        / 100 := by
  refine ⟨?_, ?_, ?_, rfl⟩ <;> simp [getWallet, getOrCreateWallet, h, walletInfoOf]

/-- Witness for C7: reading carol's INR wallet in USD converts the
balance and leaves the stored state unchanged. -/
theorem claim_C7_witness :
    (getWallet [("carol", sampleWalletCarol)] "carol" .USD 50).1.balance =
      (if sampleWalletCarol.currency = .USD then sampleWalletCarol.balance
       else convertCurrency sampleWalletCarol.balance sampleWalletCarol.currency .USD) ∧
    (getWallet [("carol", sampleWalletCarol)] "carol" .USD 50).1.nativeBalance =
      sampleWalletCarol.balance ∧
    (getWallet [("carol", sampleWalletCarol)] "carol" .USD 50).2 =
      [("carol", sampleWalletCarol)] :=
  ⟨(claim_C7_wallet_read [("carol", sampleWalletCarol)] "carol" .USD 50 sampleWalletCarol
      (by decide)).1,
   (claim_C7_wallet_read [("carol", sampleWalletCarol)] "carol" .USD 50 sampleWalletCarol
      (by decide)).2.1,
   (claim_C7_wallet_read [("carol", sampleWalletCarol)] "carol" .USD 50 sampleWalletCarol
      (by decide)).2.2.1⟩

/-- C8: a process-winnings call adds the platform fee converted to INR to
the developer wallet's balance and total earnings, credits the winner's
wallet balance and total winnings with the winnings amount (converted to
the winner's native currency when it differs), and leaves every other
user's wallet unchanged. -/
theorem claim_C8_process_winnings (s : WalletState) (dev : DeveloperWallet)
    (matchId winner : String) (amount : ℚ) (currency : Currency) (platformFee : ℚ)
    (now : ℕ) :
    (processWinnings s dev matchId winner amount currency platformFee now).2.balance =
      dev.balance + convertCurrency platformFee currency .INR ∧
    (processWinnings s dev matchId winner amount currency platformFee now).2.totalEarnings =
      dev.totalEarnings + convertCurrency platformFee currency .INR ∧
    (∀ w, lookupA s winner = some w →
      lookupA (processWinnings s dev matchId winner amount currency platformFee now).1 winner =
        some { w with
               balance := w.balance + winningsCredit w amount currency,
               totalWinnings := w.totalWinnings + winningsCredit w amount currency,
               lastActivity := now }) ∧
    (lookupA s winner = none →
      lookupA (processWinnings s dev matchId winner amount currency platformFee now).1 winner =
        some { createWallet winner currency now with
               balance := amount, totalWinnings := amount, lastActivity := now }) ∧
    (∀ u, u ≠ winner →
      lookupA (processWinnings s dev matchId winner amount currency platformFee now).1 u =
        lookupA s u) := by
  refine ⟨rfl, rfl, ?_, ?_, ?_⟩
  · intro w hw
    simp [processWinnings, getOrCreateWallet, hw, lookupA_setA_self]
  · intro hw
    simp [processWinnings, getOrCreateWallet, hw, lookupA_setA_self, createWallet,
      winningsCredit]
  · intro u hu
    rcases hw : lookupA s winner with _ | w
    · simp only [processWinnings, getOrCreateWallet, hw]
      rw [lookupA_setA_ne _ _ _ _ hu, lookupA_setA_ne _ _ _ _ hu]
    · simp only [processWinnings, getOrCreateWallet, hw]
      rw [lookupA_setA_ne _ _ _ _ hu]

/-- Witness for C8: dan (USD wallet) wins 16 INR with a 4 INR platform
fee; the developer wallet grows by the INR fee, dan's wallet is credited
with the converted winnings, and carol's absent wallet stays absent. -/
theorem claim_C8_witness :
    (processWinnings [("dan", sampleWalletDan)] initialDeveloperWallet "match_aaaaaaaa"
        "dan" 16 .INR 4 99).2.balance =
      initialDeveloperWallet.balance + convertCurrency 4 .INR .INR ∧
    lookupA (processWinnings [("dan", sampleWalletDan)] initialDeveloperWallet
        "match_aaaaaaaa" "dan" 16 .INR 4 99).1 "dan" =
      some { sampleWalletDan with
             balance := sampleWalletDan.balance + winningsCredit sampleWalletDan 16 .INR,
             totalWinnings :=
               sampleWalletDan.totalWinnings + winningsCredit sampleWalletDan 16 .INR,
             lastActivity := 99 } ∧
    lookupA (processWinnings [("dan", sampleWalletDan)] initialDeveloperWallet
        "match_aaaaaaaa" "dan" 16 .INR 4 99).1 "carol" =
      lookupA [("dan", sampleWalletDan)] "carol" :=
  ⟨(claim_C8_process_winnings [("dan", sampleWalletDan)] initialDeveloperWallet
      "match_aaaaaaaa" "dan" 16 .INR 4 99).1,
   (claim_C8_process_winnings [("dan", sampleWalletDan)] initialDeveloperWallet
      "match_aaaaaaaa" "dan" 16 .INR 4 99).2.2.1 sampleWalletDan (by decide),
   (claim_C8_process_winnings [("dan", sampleWalletDan)] initialDeveloperWallet
      "match_aaaaaaaa" "dan" 16 .INR 4 99).2.2.2.2 "carol" (by decide)⟩

theorem getOrCreate_nonneg (s : WalletState) (userId : String) (currency : Currency)
    (now : ℕ) (hs : nonnegBalances s) :
    nonnegBalances (getOrCreateWallet s userId currency now).2 ∧
    0 ≤ (getOrCreateWallet s userId currency now).1.balance := by
  rcases hl : lookupA s userId with _ | w
  · simp only [getOrCreateWallet, hl]
    refine ⟨?_, le_refl 0⟩
    intro kv hkv
    rcases mem_setA _ _ _ _ hkv with h | h
    · rw [h]
      exact le_refl 0
    · exact hs kv h
  · simp only [getOrCreateWallet, hl]
    exact ⟨hs, hs (userId, w) (lookupA_mem _ _ _ hl)⟩

/-- C9: user wallet balances start at 0 and never go negative: deposits
and winnings only add a non-negative credit, and a withdrawal whose
requested amount converted into the wallet's native currency exceeds the
balance is rejected as insufficient with the state unchanged, the
converted amount being deducted only otherwise. -/
theorem claim_C9_nonnegative_balance :
    (∀ (userId : String) (currency : Currency) (now : ℕ),
        (createWallet userId currency now).balance = 0) ∧
    (∀ (s : WalletState) (userId : String) (amount : ℚ) (currency : Currency)
        (method : String) (now : ℕ), nonnegBalances s →
        nonnegBalances (deposit s userId amount currency method now).2) ∧
    (∀ (s : WalletState) (dev : DeveloperWallet) (matchId winner : String) (amount : ℚ)
        (currency : Currency) (fee : ℚ) (now : ℕ), nonnegBalances s → 0 ≤ amount →
        nonnegBalances (processWinnings s dev matchId winner amount currency fee now).1) ∧
    (∀ (s : WalletState) (userId : String) (amount : ℚ) (currency : Option Currency)
        (now : ℕ) (w : Wallet), lookupA s userId = some w →
        w.balance < withdrawalAmountInNative w amount (currency.getD w.currency) →
        withdraw s userId amount currency now =
          (.insufficientBalance w.balance
            (withdrawalAmountInNative w amount (currency.getD w.currency)), s)) ∧
    (∀ (s : WalletState) (userId : String) (amount : ℚ) (currency : Option Currency)
        (now : ℕ), nonnegBalances s →
        nonnegBalances (withdraw s userId amount currency now).2) ∧
    (∀ (s : WalletState) (userId : String) (amount : ℚ) (currency : Option Currency)
        (now : ℕ) (w : Wallet) (netAmount fees : ℚ), lookupA s userId = some w →
        (withdraw s userId amount currency now).1 = .ok netAmount fees →
        ¬ w.balance < withdrawalAmountInNative w amount (currency.getD w.currency) ∧
        lookupA (withdraw s userId amount currency now).2 userId =
          some { w with
                 balance :=
                   w.balance - withdrawalAmountInNative w amount (currency.getD w.currency),
                 lastActivity := now }) := by
  refine ⟨fun _ _ _ => rfl, ?_, ?_, ?_, ?_, ?_⟩
  · intro s uid amount c method t hs
    obtain ⟨hs1, hw1⟩ := getOrCreate_nonneg s uid c t hs
    rcases hg : findDepositGateway c method with _ | kv
    · simp only [deposit, hg]
      exact hs1
    · by_cases hrange : amount < kv.2.minDeposit ∨ kv.2.maxDeposit < amount
      · simp only [deposit, hg, if_pos hrange]
        exact hs1
      · simp only [deposit, hg, if_neg hrange]
        have hmin : kv.2.minDeposit ≤ amount := by
          push_neg at hrange
          exact hrange.1
        have hfacts := depositGateway_facts kv (List.mem_of_find?_eq_some hg)
        have h1le : (1:ℚ) ≤ amount := le_trans hfacts.2.2 hmin
        have hfee := round2_le (amount * kv.2.fees)
        have hfeele : round2 (amount * kv.2.fees) ≤ amount := by
          nlinarith [hfacts.1, hfacts.2.1]
        have hnet : 0 ≤ amount - round2 (amount * kv.2.fees) := by linarith
        have hwa : 0 ≤ (if c = (getOrCreateWallet s uid c t).1.currency then
            amount - round2 (amount * kv.2.fees)
          else convertCurrency (amount - round2 (amount * kv.2.fees)) c
            (getOrCreateWallet s uid c t).1.currency) := by
          split_ifs
          · exact hnet
          · exact convertCurrency_nonneg _ _ _ hnet
        intro kv2 hkv2
        rcases mem_setA _ _ _ _ hkv2 with h | h
        · rw [h]
          exact add_nonneg hw1 hwa
        · exact hs1 kv2 h
  · intro s dev mid winner amount c fee t hs hamt
    obtain ⟨hs1, hw1⟩ := getOrCreate_nonneg s winner c t hs
    have hwa : 0 ≤ winningsCredit (getOrCreateWallet s winner c t).1 amount c := by
      unfold winningsCredit
      split_ifs
      · exact hamt
      · exact convertCurrency_nonneg _ _ _ hamt
    simp only [processWinnings]
    intro kv2 hkv2
    rcases mem_setA _ _ _ _ hkv2 with h | h
    · rw [h]
      exact add_nonneg hw1 hwa
    · exact hs1 kv2 h
  · intro s uid amount c t w hl hlt
    simp only [withdraw, hl, withdrawalAmountInNative] at hlt ⊢
    rw [if_pos hlt]
  · intro s uid amount c t hs
    rcases hl : lookupA s uid with _ | w
    · simp only [withdraw, hl]
      exact hs
    · by_cases h1 : w.balance < withdrawalAmountInNative w amount (c.getD w.currency)
      · simp only [withdraw, hl, withdrawalAmountInNative] at h1 ⊢
        rw [if_pos h1]
        exact hs
      · simp only [withdraw, hl, withdrawalAmountInNative] at h1 ⊢
        rw [if_neg h1]
        rcases hv : validateKYC amount (c.getD w.currency) w.kycStatus with _ | _
        · simp only [hv, Bool.not_false, if_pos]
          exact hs
        · simp only [hv, Bool.not_true, Bool.false_eq_true, if_neg, if_false]
          rcases hg : findWithdrawGateway (c.getD w.currency) with _ | kv
          · simp only [hg]
            exact hs
          · simp only [hg]
            intro kv2 hkv2
            rcases mem_setA _ _ _ _ hkv2 with h | h
            · rw [h]
              have := not_lt.mp h1
              simp only []
              linarith
            · exact hs kv2 h
  · intro s uid amount c t w netA fees hl hok
    by_cases h1 : w.balance < withdrawalAmountInNative w amount (c.getD w.currency)
    · exfalso
      have hbad : (withdraw s uid amount c t).1 =
          .insufficientBalance w.balance
            (withdrawalAmountInNative w amount (c.getD w.currency)) := by
        simp only [withdraw, hl, withdrawalAmountInNative] at h1 ⊢
        rw [if_pos h1]
      rw [hok] at hbad
      exact absurd hbad (by simp)
    · refine ⟨h1, ?_⟩
      simp only [withdraw, hl, withdrawalAmountInNative] at h1 hok ⊢
      rw [if_neg h1] at hok ⊢
      rcases hv : validateKYC amount (c.getD w.currency) w.kycStatus with _ | _
      · simp [hv] at hok
      · simp only [hv, Bool.not_true] at hok
        rw [if_neg Bool.false_ne_true] at hok
        rw [Bool.not_true, if_neg Bool.false_ne_true]
        rcases hg : findWithdrawGateway (c.getD w.currency) with _ | kv
        · rw [hg] at hok
          simp at hok
        · exact lookupA_setA_self _ _ _

/-- Witness for C9 at concrete inputs: creation yields 0; a deposit, a
winnings credit and a successful withdrawal keep carol's balance
non-negative; an oversized withdrawal is rejected leaving the state
unchanged. -/
theorem claim_C9_witness :
    (createWallet "eve" .INR 1).balance = 0 ∧
    nonnegBalances [("carol", sampleWalletCarol)] ∧
    nonnegBalances (deposit [("carol", sampleWalletCarol)] "carol" 100 .INR "UPI" 60).2 ∧
    nonnegBalances (processWinnings [("carol", sampleWalletCarol)] initialDeveloperWallet
      "match_aaaaaaaa" "carol" 16 .INR 4 61).1 ∧
    withdraw [("carol", sampleWalletCarol)] "carol" 1000 none 62 =
      (.insufficientBalance sampleWalletCarol.balance
        (withdrawalAmountInNative sampleWalletCarol 1000
          (Option.getD none sampleWalletCarol.currency)),
       [("carol", sampleWalletCarol)]) ∧
    nonnegBalances (withdraw [("carol", sampleWalletCarol)] "carol" 200 none 63).2 :=
  ⟨claim_C9_nonnegative_balance.1 "eve" .INR 1,
   by decide,
   claim_C9_nonnegative_balance.2.1 [("carol", sampleWalletCarol)] "carol" 100 .INR "UPI" 60
     (by decide),
   claim_C9_nonnegative_balance.2.2.1 [("carol", sampleWalletCarol)] initialDeveloperWallet
     "match_aaaaaaaa" "carol" 16 .INR 4 61 (by decide) (by decide),
   claim_C9_nonnegative_balance.2.2.2.1 [("carol", sampleWalletCarol)] "carol" 1000 none 62
     sampleWalletCarol (by decide) (by decide),
   claim_C9_nonnegative_balance.2.2.2.2.1 [("carol", sampleWalletCarol)] "carol" 200 none 63
     (by decide)⟩

/-- C10: reading a missing wallet is not a pure read: it creates and
stores a wallet with zero balance and totals, pending KYC and the
requested currency as native currency (the endpoint defaults the query
parameter to INR), returns that wallet, and a subsequent read finds the
stored wallet. -/
theorem claim_C10_read_creates_wallet (s : WalletState) (userId : String)
    (currency : Currency) (now : ℕ) (h : lookupA s userId = none) :
    (getWallet s userId currency now).2 = setA s userId (createWallet userId currency now) ∧
    lookupA (getWallet s userId currency now).2 userId =
      some (createWallet userId currency now) ∧
    (createWallet userId currency now).balance = 0 ∧
    (createWallet userId currency now).totalDeposits = 0 ∧
    (createWallet userId currency now).totalWithdrawals = 0 ∧
    (createWallet userId currency now).totalWinnings = 0 ∧
    (createWallet userId currency now).kycStatus = .pending ∧
    (createWallet userId currency now).currency = currency ∧
    (getWallet s userId currency now).1 =
      walletInfoOf (createWallet userId currency now) currency ∧
    getWallet (getWallet s userId currency now).2 userId currency now =
      ((getWallet s userId currency now).1, (getWallet s userId currency now).2) ∧
    (∀ (s2 : WalletState) (u2 : String) (t2 : ℕ),
      getWalletEndpoint s2 u2 none t2 = getWallet s2 u2 .INR t2) := by
  have h2 : (getWallet s userId currency now).2 =
      setA s userId (createWallet userId currency now) := by
    simp [getWallet, getOrCreateWallet, h]
  have hself := lookupA_setA_self s userId (createWallet userId currency now)
  refine ⟨h2, ?_, rfl, rfl, rfl, rfl, rfl, rfl, ?_, ?_, fun _ _ _ => rfl⟩
  · rw [h2]
    exact hself
  · simp [getWallet, getOrCreateWallet, h]
  · rw [h2]
    simp [getWallet, getOrCreateWallet, hself, h]

/-- Witness for C10: reading the empty state for dave in USD creates and
stores dave's zeroed USD wallet, which a second read then finds. -/
theorem claim_C10_witness :
    lookupA (getWallet [] "dave" .USD 70).2 "dave" = some (createWallet "dave" .USD 70) ∧
    (createWallet "dave" .USD 70).balance = 0 ∧
    (createWallet "dave" .USD 70).kycStatus = .pending ∧
    (createWallet "dave" .USD 70).currency = .USD ∧
    getWallet (getWallet [] "dave" .USD 70).2 "dave" .USD 70 =
      ((getWallet [] "dave" .USD 70).1, (getWallet [] "dave" .USD 70).2) :=
  ⟨(claim_C10_read_creates_wallet [] "dave" .USD 70 rfl).2.1,
   (claim_C10_read_creates_wallet [] "dave" .USD 70 rfl).2.2.1,
   (claim_C10_read_creates_wallet [] "dave" .USD 70 rfl).2.2.2.2.2.2.1,
   (claim_C10_read_creates_wallet [] "dave" .USD 70 rfl).2.2.2.2.2.2.2.1,
   (claim_C10_read_creates_wallet [] "dave" .USD 70 rfl).2.2.2.2.2.2.2.2.2.1⟩

end Skillzy

